import Mathlib

/-!
Verification development for the Silverline Hood device-communication core
(`custom_components/silverline_hood/__init__.py` and `light.py`).

The Python code is shallowly embedded: JSON values become `JVal`, Python
dicts holding device state become insertion-ordered association lists
(`StateMap`), `bytes` become `List Nat`, and each coroutine of the
coordinator becomes a pure function from a network environment (`NetEnv`,
recording the outcome of the connect / handshake-read / write /
response-read steps of the single TCP exchange) to a result record that
captures the returned value, the mutated `_last_state`, whether the socket
was opened and closed, and the trace of transport events.

A raised Python exception is modelled as an `Except.error` carrying the
kind of the exception (`PyErr`); `_query_current_status` wraps every inner
exception in `UpdateFailed` before re-raising, which we model by the
result being an `Except.error` of the inner kind.
-/

namespace Hood

/-- JSON values as produced by Python's `json.loads`.  Non-integral number
literals are kept as their source text in `jnum` (no claim depends on
float arithmetic). -/
inductive JVal where
  | jnull : JVal
  | jbool (b : Bool) : JVal
  | jint (n : Int) : JVal
  | jnum (lit : String) : JVal
  | jstr (s : String) : JVal
  | jarr (items : List JVal) : JVal
  | jobj (fields : List (String × JVal)) : JVal

open JVal

/-- Device state, modelling a Python `dict[str, ...]`: an association list
with unique keys kept in insertion order. -/
abbrev StateMap := List (String × JVal)

/-- Python `d[k] = v` / dict merge of a single key: overwrite the first
(only) binding of `k` keeping its position, or append a fresh binding. -/
def mapSet : StateMap → String → JVal → StateMap
  | [], k, v => [(k, v)]
  | (k', v') :: rest, k, v =>
      if k' = k then (k, v) :: rest else (k', v') :: mapSet rest k v

/-- Python `d.get(k)` / `d[k]` lookup. -/
def mapGet? : StateMap → String → Option JVal
  | [], _ => none
  | (k', v') :: rest, k => if k' = k then some v' else mapGet? rest k

/-- Python `d.update(other)` for a dict argument: shallow union, every key
of `other` overwrites, all other keys retained. -/
def updObj (m : StateMap) (fields : List (String × JVal)) : StateMap :=
  fields.foldl (fun acc kv => mapSet acc kv.1 kv.2) m

/-- Kinds of Python exceptions that can arise in the exchanges. -/
inductive PyErr where
  | connectErr : PyErr
  | writeErr : PyErr
  | timeoutErr : PyErr
  | unicodeDecodeErr : PyErr
  | jsonDecodeErr : PyErr
  | typeErr : PyErr
  | valueErr : PyErr
  | attrErr : PyErr
deriving DecidableEq, Repr

/-! ## UTF-8 decoding (`bytes.decode()`) -/

/-- Raw bytes, each entry in 0..255. -/
abbrev Bytes := List Nat

/-- UTF-8 continuation byte test. -/
def isCont (b : Nat) : Bool := decide (0x80 ≤ b ∧ b ≤ 0xBF)

/-- Strict UTF-8 decoding as performed by Python's `bytes.decode()`:
rejects overlong encodings, surrogates and out-of-range code points;
`none` models a raised `UnicodeDecodeError`. -/
def utf8Decode? : Bytes → Option (List Char)
  | [] => some []
  | b :: rest =>
    if b ≤ 0x7F then (utf8Decode? rest).map (Char.ofNat b :: ·)
    else if b ≤ 0xC1 then none
    else if b ≤ 0xDF then
      match rest with
      | b2 :: rest2 =>
        if isCont b2 then
          (utf8Decode? rest2).map (Char.ofNat ((b - 0xC0) * 0x40 + (b2 - 0x80)) :: ·)
        else none
      | [] => none
    else if b ≤ 0xEF then
      match rest with
      | b2 :: b3 :: rest3 =>
        let lo2 : Nat := if b = 0xE0 then 0xA0 else 0x80
        let hi2 : Nat := if b = 0xED then 0x9F else 0xBF
        if lo2 ≤ b2 ∧ b2 ≤ hi2 ∧ isCont b3 then
          (utf8Decode? rest3).map
            (Char.ofNat ((b - 0xE0) * 0x1000 + (b2 - 0x80) * 0x40 + (b3 - 0x80)) :: ·)
        else none
      | _ => none
    else if b ≤ 0xF4 then
      match rest with
      | b2 :: b3 :: b4 :: rest4 =>
        let lo2 : Nat := if b = 0xF0 then 0x90 else 0x80
        let hi2 : Nat := if b = 0xF4 then 0x8F else 0xBF
        if lo2 ≤ b2 ∧ b2 ≤ hi2 ∧ isCont b3 ∧ isCont b4 then
          (utf8Decode? rest4).map
            (Char.ofNat ((b - 0xF0) * 0x40000 + (b2 - 0x80) * 0x1000 +
              (b3 - 0x80) * 0x40 + (b4 - 0x80)) :: ·)
        else none
      | _ => none
    else none

/-- `bytes.decode()` returning a `String`. -/
def pyDecode? (bs : Bytes) : Option String := (utf8Decode? bs).map List.asString

/-- ASCII bytes of a string (used only for concrete ASCII inputs, where
UTF-8 bytes coincide with code points). -/
def strB (s : String) : Bytes := s.data.map Char.toNat

/-! ## `str.strip()` -/

/-- Whitespace stripped by Python's `str.strip()` (ASCII part). -/
def pyWs (c : Char) : Bool :=
  decide (c = ' ' ∨ c = '\t' ∨ c = '\n' ∨ c = '\r' ∨ c = Char.ofNat 11 ∨ c = Char.ofNat 12)

/-- Python `s.strip()`. -/
def pyStrip (s : String) : String :=
  (((s.data.dropWhile pyWs).reverse.dropWhile pyWs).reverse).asString

/-! ## `json.loads` -/

/-- JSON insignificant whitespace (as accepted by Python's `json`). -/
def jsonWs (c : Char) : Bool := decide (c = ' ' ∨ c = '\t' ∨ c = '\n' ∨ c = '\r')

/-- Skip JSON whitespace. -/
def skipWs (cs : List Char) : List Char := cs.dropWhile jsonWs

/-- Hex digit value, if any. -/
def hexVal? (c : Char) : Option Nat :=
  if '0' ≤ c ∧ c ≤ '9' then some (c.toNat - 48)
  else if 'a' ≤ c ∧ c ≤ 'f' then some (c.toNat - 87)
  else if 'A' ≤ c ∧ c ≤ 'F' then some (c.toNat - 70)
  else none

/-- Value of four hex digits, if well formed. -/
def hex4? : List Char → Option Nat
  | a :: b :: c :: d :: _ =>
    match hexVal? a, hexVal? b, hexVal? c, hexVal? d with
    | some x, some y, some z, some w => some (((x * 16 + y) * 16 + z) * 16 + w)
    | _, _, _, _ => none
  | _ => none

/-- Body of a JSON string literal after the opening quote, with fuel:
returns the decoded characters and the remainder after the closing quote.
Mirrors Python's strict mode (control characters must be escaped); a
surrogate pair in `\uXXXX` escapes is combined into one character. -/
def parseStrBody : Nat → List Char → List Char → Option (String × List Char)
  | 0, _, _ => none
  | _ + 1, _, [] => none
  | fuel + 1, acc, c :: rest =>
    if c = '"' then some (acc.reverse.asString, rest)
    else if c = '\\' then
      match rest with
      | [] => none
      | e :: rest2 =>
        if e = '"' then parseStrBody fuel ('"' :: acc) rest2
        else if e = '\\' then parseStrBody fuel ('\\' :: acc) rest2
        else if e = '/' then parseStrBody fuel ('/' :: acc) rest2
        else if e = 'b' then parseStrBody fuel (Char.ofNat 8 :: acc) rest2
        else if e = 'f' then parseStrBody fuel (Char.ofNat 12 :: acc) rest2
        else if e = 'n' then parseStrBody fuel ('\n' :: acc) rest2
        else if e = 'r' then parseStrBody fuel ('\r' :: acc) rest2
        else if e = 't' then parseStrBody fuel ('\t' :: acc) rest2
        else if e = 'u' then
          match hex4? rest2 with
          | none => none
          | some n =>
            let rest3 := rest2.drop 4
            if 0xD800 ≤ n ∧ n ≤ 0xDBFF then
              match rest3 with
              | '\\' :: 'u' :: rest4 =>
                match hex4? rest4 with
                | some lo =>
                  if 0xDC00 ≤ lo ∧ lo ≤ 0xDFFF then
                    parseStrBody fuel
                      (Char.ofNat (0x10000 + (n - 0xD800) * 0x400 + (lo - 0xDC00)) :: acc)
                      (rest4.drop 4)
                  else parseStrBody fuel (Char.ofNat n :: acc) rest3
                | none => parseStrBody fuel (Char.ofNat n :: acc) rest3
              | _ => parseStrBody fuel (Char.ofNat n :: acc) rest3
            else parseStrBody fuel (Char.ofNat n :: acc) rest3
        else none
    else if c.toNat < 0x20 then none
    else parseStrBody fuel (c :: acc) rest

/-- Digits of a natural number literal to its value. -/
def digitsToNat (ds : List Char) : Nat :=
  ds.foldl (fun a c => a * 10 + (c.toNat - 48)) 0

/-- JSON number literal, per Python's `json` grammar
`-?(0|[1-9][0-9]*)(.[0-9]+)?([eE][-+]?[0-9]+)?`: integral literals yield
`jint`, any literal with a fraction or exponent is kept as `jnum` text. -/
def parseNum : List Char → Option (JVal × List Char)
  | cs =>
    let (neg, cs1) :=
      match cs with
      | '-' :: r => (true, r)
      | _ => (false, cs)
    match cs1 with
    | [] => none
    | c :: _ =>
      if ¬ c.isDigit then none
      else
        let intPart : List Char :=
          if c = '0' then ['0'] else cs1.takeWhile Char.isDigit
        let rest1 := cs1.drop intPart.length
        let fracPart : Option (List Char × List Char) :=
          match rest1 with
          | '.' :: r2 =>
            let fd := r2.takeWhile Char.isDigit
            if fd.isEmpty then none else some ('.' :: fd, r2.drop fd.length)
          | _ => some ([], rest1)
        match fracPart with
        | none => none
        | some (fchars, rest2) =>
          let expPart : Option (List Char × List Char) :=
            match rest2 with
            | e :: r3 =>
              if e = 'e' ∨ e = 'E' then
                let (sgn, r4) :=
                  match r3 with
                  | s :: r4' => if s = '+' ∨ s = '-' then ([s], r4') else ([], r3)
                  | [] => ([], r3)
                let ed := r4.takeWhile Char.isDigit
                if ed.isEmpty then none else some (e :: (sgn ++ ed), r4.drop ed.length)
              else some ([], rest2)
            | [] => some ([], rest2)
          match expPart with
          | none => none
          | some (echars, rest3) =>
            if fchars.isEmpty ∧ echars.isEmpty then
              some (jint ((if neg then (-1 : Int) else 1) * digitsToNat intPart), rest3)
            else
              some (jnum (((if neg then ['-'] else []) ++ intPart ++ fchars ++ echars).asString),
                rest3)

/-- Open-brace character, written via its code point. -/
def obr : Char := Char.ofNat 123

/-- Close-brace character, written via its code point. -/
def cbr : Char := Char.ofNat 125

mutual

/-- JSON value parser with fuel, modelling Python's `json.loads` grammar
(including its `NaN`/`Infinity` extensions). -/
def parseVal : Nat → List Char → Option (JVal × List Char)
  | 0, _ => none
  | fuel + 1, cs =>
    let cs := skipWs cs
    match cs with
    | [] => none
    | c :: rest =>
      if c = '"' then
        (parseStrBody (rest.length + 1) [] rest).map (fun (s, r) => (jstr s, r))
      else if c = obr then parseObj fuel rest
      else if c = '[' then parseArr fuel rest
      else if List.isPrefixOf "true".data cs then some (jbool true, cs.drop 4)
      else if List.isPrefixOf "false".data cs then some (jbool false, cs.drop 5)
      else if List.isPrefixOf "null".data cs then some (jnull, cs.drop 4)
      else if List.isPrefixOf "NaN".data cs then some (jnum "NaN", cs.drop 3)
      else if List.isPrefixOf "Infinity".data cs then some (jnum "Infinity", cs.drop 8)
      else if List.isPrefixOf "-Infinity".data cs then some (jnum "-Infinity", cs.drop 9)
      else parseNum cs

/-- Object members after the opening brace; duplicate keys overwrite in
place, mirroring Python dict construction. -/
def parseObj : Nat → List Char → Option (JVal × List Char)
  | 0, _ => none
  | fuel + 1, cs =>
    let cs := skipWs cs
    match cs with
    | c :: _ =>
      if c = cbr then some (jobj [], cs.tail) else parseMembers fuel [] cs
    | [] => none

/-- One or more `"key": value` members followed by `,` or the closing
brace. -/
def parseMembers : Nat → StateMap → List Char → Option (JVal × List Char)
  | 0, _, _ => none
  | fuel + 1, acc, cs =>
    match skipWs cs with
    | '"' :: rest =>
      match parseStrBody (rest.length + 1) [] rest with
      | none => none
      | some (k, rest2) =>
        match skipWs rest2 with
        | ':' :: rest3 =>
          match parseVal fuel rest3 with
          | none => none
          | some (v, rest4) =>
            match skipWs rest4 with
            | ',' :: rest5 => parseMembers fuel (mapSet acc k v) rest5
            | d :: rest5 =>
              if d = cbr then some (jobj (mapSet acc k v), rest5) else none
            | [] => none
        | _ => none
    | _ => none

/-- Array items after the opening bracket. -/
def parseArr : Nat → List Char → Option (JVal × List Char)
  | 0, _ => none
  | fuel + 1, cs =>
    match skipWs cs with
    | ']' :: rest => some (jarr [], rest)
    | cs' => parseItems fuel [] cs'

/-- One or more array items followed by `,` or `]`. -/
def parseItems : Nat → List JVal → List Char → Option (JVal × List Char)
  | 0, _, _ => none
  | fuel + 1, acc, cs =>
    match parseVal fuel cs with
    | none => none
    | some (v, rest) =>
      match skipWs rest with
      | ',' :: rest2 => parseItems fuel (acc ++ [v]) rest2
      | ']' :: rest2 => some (jarr (acc ++ [v]), rest2)
      | _ => none

end

/-- Python `json.loads`: parse one JSON value, allowing surrounding
whitespace only; `none` models a raised `json.JSONDecodeError`. -/
def jsonLoads (s : String) : Option JVal :=
  match parseVal (2 * s.data.length + 4) s.data with
  | some (v, rest) => if (skipWs rest).isEmpty then some v else none
  | none => none

/-! ## `json.dumps` -/

/-- Escape one character as Python's `json.dumps` does with its default
`ensure_ascii=True`. -/
def escChar (c : Char) : String :=
  if c = '"' then "\\\""
  else if c = '\\' then "\\\\"
  else if c = '\n' then "\\n"
  else if c = '\r' then "\\r"
  else if c = '\t' then "\\t"
  else if c = Char.ofNat 8 then "\\b"
  else if c = Char.ofNat 12 then "\\f"
  else if c.toNat < 0x20 ∨ 0x7E < c.toNat then
    if c.toNat ≤ 0xFFFF then "\\u" ++ (Nat.toDigits 16 c.toNat).asString.leftpad 4 '0'
    else
      let n := c.toNat - 0x10000
      "\\u" ++ (Nat.toDigits 16 (0xD800 + n / 0x400)).asString.leftpad 4 '0' ++
      "\\u" ++ (Nat.toDigits 16 (0xDC00 + n % 0x400)).asString.leftpad 4 '0'
  else String.singleton c

/-- JSON string literal rendering. -/
def dumpStr (s : String) : String :=
  "\"" ++ s.data.foldl (fun acc c => acc ++ escChar c) "" ++ "\""

mutual

/-- Python `json.dumps` with its default separators `", "` and `": "`,
iterating dict fields in insertion order. -/
def jsonDumps : JVal → String
  | jnull => "null"
  | jbool true => "true"
  | jbool false => "false"
  | jint n => toString n
  | jnum lit => lit
  | jstr s => dumpStr s
  | jarr items => "[" ++ dumpList items ++ "]"
  | jobj fields => String.singleton obr ++ dumpFields fields ++ String.singleton cbr

/-- Comma-separated array items. -/
def dumpList : List JVal → String
  | [] => ""
  | [x] => jsonDumps x
  | x :: rest => jsonDumps x ++ ", " ++ dumpList rest

/-- Comma-separated object members. -/
def dumpFields : List (String × JVal) → String
  | [] => ""
  | [(k, v)] => dumpStr k ++ ": " ++ jsonDumps v
  | (k, v) :: rest => dumpStr k ++ ": " ++ jsonDumps v ++ ", " ++ dumpFields rest

end

/-! ## `dict.update` with an arbitrary `json.loads` result -/

/-- One element of a non-dict update sequence, as interpreted by CPython's
`dict.update`: the element must be a sequence of length two; its first
item becomes the key.  Keys that are not strings cannot live in our
string-keyed state model and are reported as a `TypeError` (CPython only
raises for unhashable keys; no device state in scope carries non-string
keys). -/
def seqElemKV : JVal → Except PyErr (String × JVal)
  | jarr [jstr k, v] => .ok (k, v)
  | jarr l => if l.length = 2 then .error .typeErr else .error .valueErr
  | jstr s =>
    match s.data with
    | [a, b] => .ok (String.singleton a, jstr (String.singleton b))
    | _ => .error .valueErr
  | jobj [(k1, _), (k2, _)] => .ok (k1, jstr k2)
  | jobj _ => .error .valueErr
  | _ => .error .typeErr

/-- Folding a sequence of key/value elements into the dict, one by one;
on a bad element CPython raises after the earlier elements were already
applied, so the partially mutated dict is returned with the error. -/
def updFromSeq : StateMap → List JVal → Option PyErr × StateMap
  | m, [] => (none, m)
  | m, e :: rest =>
    match seqElemKV e with
    | .ok (k, v) => updFromSeq (mapSet m k v) rest
    | .error err => (some err, m)

/-- Python `d.update(x)` for an arbitrary `json.loads` result `x`:
a dict argument merges as a shallow union and never raises; a list
argument is folded element-wise (possibly mutating before raising); a
string iterates its characters, which fail unless the string is empty;
anything else raises `TypeError`. -/
def dictUpdate (m : StateMap) : JVal → Option PyErr × StateMap
  | jobj fields => (none, updObj m fields)
  | jarr items => updFromSeq m items
  | jstr s => if s.isEmpty then (none, m) else (some .valueErr, m)
  | _ => (some .typeErr, m)

/-! ## The coordinator (`SilverlineHoodCoordinator`) -/

/-- Outcome of the four socket operations of one TCP exchange, fixed by
the environment: whether `asyncio.open_connection` succeeds within its
timeout, the bytes (if any) of the initial handshake read (`none` models
its `asyncio.TimeoutError`), whether `writer.write`/`drain` succeeds, and
the bytes (if any) of the response read (`none` models its timeout). -/
structure NetEnv where
  connectOk : Bool
  initialRead : Option Bytes
  writeOk : Bool
  responseRead : Option Bytes

/-- Observable transport events of one coordinator call. -/
inductive Ev where
  | openConn : Ev
  | readInit : Ev
  | writeF (frame : String) : Ev
  | readResp : Ev
  | closeConn : Ev
  | sleepEv : Ev
  | reqRefresh : Ev

/-- Whether an event is a connection-open attempt. -/
def isOpenEv : Ev → Bool
  | .openConn => true
  | _ => false

/-- Whether an event writes a frame. -/
def isWriteEv : Ev → Bool
  | .writeF _ => true
  | _ => false

/-- The seeded `_last_state` defaults from the coordinator constructor. -/
def defaultState : StateMap :=
  [("M", jint 1), ("L", jint 1), ("R", jint 45), ("G", jint 255), ("B", jint 104),
   ("CW", jint 110), ("BRG", jint 132), ("T", jint 0), ("TM", jint 0), ("TS", jint 0),
   ("A", jint 1), ("LM", jint 0), ("CWD", jint 0), ("RGBD", jint 0)]

/-- The literal status query frame `'\x7b"A":4\x7d\r'`. -/
def statusCmd : String := "\x7b\"A\":4\x7d\r"

/-- The handshake read succeeds as far as the code is concerned when it
either times out (caught) or returns bytes that decode as UTF-8 (the
decode result is only logged; a `UnicodeDecodeError` escapes the inner
`except asyncio.TimeoutError` handler). -/
def initialOk (env : NetEnv) : Bool :=
  match env.initialRead with
  | none => true
  | some bs => (utf8Decode? bs).isSome

/-- What `_query_current_status` returns on success: either a freshly
decoded status object or (on empty / undecodable responses) the
`self._last_state` dict itself, by reference. -/
inductive QueryOut where
  | fresh (v : JVal) : QueryOut
  | lastRef : QueryOut

/-- Result of `_query_current_status`: the returned value or the raised
exception (wrapped in `UpdateFailed` by the outer handler), the
`_last_state` after the call, whether a connection was opened, whether it
was closed, and the transport events. -/
structure QueryRes where
  result : Except PyErr QueryOut
  lastSt : StateMap
  opened : Bool
  closed : Bool
  trace : List Ev

/-- `_query_current_status` (lines 203-248): open, best-effort handshake
read, write `'\x7b"A":4\x7d\r'`, read the response, close, then decode and
merge.  The close at lines 228-229 runs only after a successful response
read; a read timeout, a handshake `UnicodeDecodeError`, or a write
failure propagates without reaching it.  A `json.JSONDecodeError` is
caught and the method falls through to `return self._last_state`; any
other exception is re-raised as `UpdateFailed`. -/
def queryCurrentStatus (env : NetEnv) (last : StateMap) : QueryRes :=
  if !env.connectOk then
    ⟨.error .connectErr, last, false, false, [.openConn]⟩
  else if !initialOk env then
    ⟨.error .unicodeDecodeErr, last, true, false, [.openConn, .readInit]⟩
  else if !env.writeOk then
    ⟨.error .writeErr, last, true, false, [.openConn, .readInit, .writeF statusCmd]⟩
  else
    match env.responseRead with
    | none =>
      ⟨.error .timeoutErr, last, true, false,
        [.openConn, .readInit, .writeF statusCmd, .readResp]⟩
    | some bs =>
      let tr : List Ev := [.openConn, .readInit, .writeF statusCmd, .readResp, .closeConn]
      if bs.isEmpty then ⟨.ok .lastRef, last, true, true, tr⟩
      else
        match pyDecode? bs with
        | none => ⟨.error .unicodeDecodeErr, last, true, true, tr⟩
        | some s =>
          match jsonLoads (pyStrip s) with
          | none => ⟨.ok .lastRef, last, true, true, tr⟩
          | some v =>
            match dictUpdate last v with
            | (none, last2) => ⟨.ok (.fresh v), last2, true, true, tr⟩
            | (some e, last2) => ⟨.error e, last2, true, true, tr⟩

/-- The coordinator's `self.data` as set by the framework from the value
`_async_update_data` returns: unset, an alias of the `_last_state` dict,
or an independent value. -/
inductive CoordData where
  | noneD : CoordData
  | aliased : CoordData
  | val (v : JVal) : CoordData

/-- Result of one poll tick. -/
structure TickRes where
  dat : CoordData
  lastSt : StateMap

/-- `_async_update_data` (lines 194-201): try the status query; on any
exception return `self._last_state` (so the coordinator's data becomes an
alias of it); on success return the query's value. -/
def asyncUpdateData (env : NetEnv) (last : StateMap) : TickRes :=
  let q := queryCurrentStatus env last
  match q.result with
  | .ok (.fresh v) => ⟨.val v, q.lastSt⟩
  | .ok .lastRef => ⟨.aliased, q.lastSt⟩
  | .error _ => ⟨.aliased, q.lastSt⟩

/-- Whether a non-integral number literal denotes zero (Python float
truthiness). -/
def numLitIsZero (lit : String) : Bool :=
  let mant := lit.data.takeWhile (fun c => ¬ (c = 'e' ∨ c = 'E'))
  mant.all (fun c => !c.isDigit || c = '0') && mant.any Char.isDigit

/-- Python truthiness of a JSON value. -/
def truthy : JVal → Bool
  | jnull => false
  | jbool b => b
  | jint n => n != 0
  | jnum lit => !numLitIsZero lit
  | jstr s => !s.isEmpty
  | jarr items => !items.isEmpty
  | jobj fields => !fields.isEmpty

/-- The expression `self.data or self._last_state` (lines 257 and 438):
an aliased data object is the `_last_state` dict itself, so either way
the fallback lands on `last`. -/
def currentStateView (dat : CoordData) (last : StateMap) : JVal :=
  match dat with
  | .val v => if truthy v then v else jobj last
  | _ => jobj last

/-- The `current_state` seen through a dict interface: `some` when the
visible value is a mapping. -/
def currentStateMap (dat : CoordData) (last : StateMap) : Option StateMap :=
  match currentStateView dat last with
  | jobj m => some m
  | _ => none

/-- Key lookup on an arbitrary visible state value. -/
def getView (v : JVal) (k : String) : Option JVal :=
  match v with
  | jobj m => mapGet? m k
  | _ => none

/-- The fixed key list of the `clean_state` loop (line 266). -/
def cleanKeys : List String :=
  ["M", "L", "R", "G", "B", "CW", "BRG", "T", "TM", "TS", "A"]

/-- The `clean_state` loop (lines 265-268): keep, in the fixed order, the
listed keys that are present in `new_state`; all other keys are dropped. -/
def cleanFilter : List String → StateMap → StateMap
  | [], _ => []
  | k :: ks, m =>
    match mapGet? m k with
    | some v => (k, v) :: cleanFilter ks m
    | none => cleanFilter ks m

/-- `clean_state` computed from `new_state`. -/
def cleanStateOf (m : StateMap) : StateMap := cleanFilter cleanKeys m

/-- The encoded command frame of `send_smart_command` (lines 261-273):
`json.dumps(clean_state) + '\r'` where `clean_state` filters the current
snapshot with the requested changes applied on top. -/
def smartFrame (m : StateMap) (changes : StateMap) : String :=
  jsonDumps (jobj (cleanStateOf (updObj m changes))) ++ "\r"

/-- Effect of the awaited `self.async_request_refresh()` call that ends
every successful dispatch (lines 318, 365, 428) and the `status_query`
branch of `send_exact_command` (line 385).  The coordinator's
request-refresh `Debouncer` is built with `immediate=True` and a 10 s
cooldown: when the cooldown timer is idle the debouncer awaits a full
`async_refresh` inline — `_async_update_data` runs a complete
`_query_current_status` TCP exchange against its own environment `renv`,
merges into `_last_state` and replaces the coordinator's data — before
the dispatcher returns; when the timer is armed (`none`) the refresh is
only scheduled past the cooldown and nothing runs inside the dispatch. -/
structure RefreshFx where
  lastSt : StateMap
  dat : CoordData
  trace : List Ev

/-- The inline-or-deferred refresh step, as described on `RefreshFx`. -/
def doRequestRefresh (refresh : Option NetEnv) (last : StateMap) (dat : CoordData) :
    RefreshFx :=
  match refresh with
  | none => ⟨last, dat, [.reqRefresh]⟩
  | some renv =>
    let t := asyncUpdateData renv last
    ⟨t.lastSt, t.dat, .reqRefresh :: (queryCurrentStatus renv last).trace⟩

/-- Result of a dispatcher call: the returned boolean, the exception that
was caught at the dispatcher boundary (if any), the `_last_state` as the
dispatch's own exchange left it (before the closing refresh), the
`_last_state` and coordinator data after the whole call (an inline
refresh can merge a status reply on top), bookkeeping for the dispatch's
own socket, and the transport events of everything run inside the call —
including, for an inline refresh, the nested status-query exchange. -/
structure CmdRes where
  ok : Bool
  caught : Option PyErr
  lastMerged : StateMap
  lastSt : StateMap
  datAfter : CoordData
  opened : Bool
  closed : Bool
  frame : Option String
  trace : List Ev

/-- `send_smart_command` (lines 250-325): build the full-state frame from
`self.data or self._last_state` plus `changes`, open, best-effort
handshake read, write, then read the response — a response timeout is
caught and the local `changes` are merged; a decoded JSON reply is merged
instead; a `json.JSONDecodeError` falls back to merging `changes`; a
`UnicodeDecodeError` or a merge error propagates to the outer handler
(skipping the close).  After the close the method sleeps, awaits
`async_request_refresh` (which may run a second, nested status-query
exchange inline, see `doRequestRefresh`) and returns `True`; the outer
`except Exception` turns any raised error into `False`. -/
def sendSmartCommand (env : NetEnv) (refresh : Option NetEnv) (last : StateMap)
    (dat : CoordData) (changes : StateMap) : CmdRes :=
  match currentStateMap dat last with
  | none => ⟨false, some .attrErr, last, last, dat, false, false, none, []⟩
  | some m =>
    let frame := smartFrame m changes
    if !env.connectOk then
      ⟨false, some .connectErr, last, last, dat, false, false, some frame, [.openConn]⟩
    else if !initialOk env then
      ⟨false, some .unicodeDecodeErr, last, last, dat, true, false, some frame,
        [.openConn, .readInit]⟩
    else if !env.writeOk then
      ⟨false, some .writeErr, last, last, dat, true, false, some frame,
        [.openConn, .readInit, .writeF frame]⟩
    else
      let tr : List Ev := [.openConn, .readInit, .writeF frame, .readResp]
      match env.responseRead with
      | none =>
        let merged := updObj last changes
        let fx := doRequestRefresh refresh merged dat
        ⟨true, none, merged, fx.lastSt, fx.dat, true, true, some frame,
          tr ++ [.closeConn, .sleepEv] ++ fx.trace⟩
      | some bs =>
        if bs.isEmpty then
          let fx := doRequestRefresh refresh last dat
          ⟨true, none, last, fx.lastSt, fx.dat, true, true, some frame,
            tr ++ [.closeConn, .sleepEv] ++ fx.trace⟩
        else
          match pyDecode? bs with
          | none =>
            ⟨false, some .unicodeDecodeErr, last, last, dat, true, false, some frame, tr⟩
          | some s =>
            match jsonLoads (pyStrip s) with
            | none =>
              let merged := updObj last changes
              let fx := doRequestRefresh refresh merged dat
              ⟨true, none, merged, fx.lastSt, fx.dat, true, true, some frame,
                tr ++ [.closeConn, .sleepEv] ++ fx.trace⟩
            | some v =>
              match dictUpdate last v with
              | (none, last2) =>
                let fx := doRequestRefresh refresh last2 dat
                ⟨true, none, last2, fx.lastSt, fx.dat, true, true, some frame,
                  tr ++ [.closeConn, .sleepEv] ++ fx.trace⟩
              | (some e, last2) =>
                ⟨false, some e, last2, last2, dat, true, false, some frame, tr⟩

/-- `send_minimal_command` (lines 327-370): the frame is just the changes;
the response, if any, is only logged, never merged; otherwise the same
open / handshake / write / read / close shape, ending in the same awaited
refresh. -/
def sendMinimalCommand (env : NetEnv) (refresh : Option NetEnv) (last : StateMap)
    (dat : CoordData) (changes : StateMap) : CmdRes :=
  let frame := jsonDumps (jobj changes) ++ "\r"
  if !env.connectOk then
    ⟨false, some .connectErr, last, last, dat, false, false, some frame, [.openConn]⟩
  else if !initialOk env then
    ⟨false, some .unicodeDecodeErr, last, last, dat, true, false, some frame,
      [.openConn, .readInit]⟩
  else if !env.writeOk then
    ⟨false, some .writeErr, last, last, dat, true, false, some frame,
      [.openConn, .readInit, .writeF frame]⟩
  else
    let tr : List Ev := [.openConn, .readInit, .writeF frame, .readResp]
    match env.responseRead with
    | none =>
      let fx := doRequestRefresh refresh last dat
      ⟨true, none, last, fx.lastSt, fx.dat, true, true, some frame,
        tr ++ [.closeConn, .sleepEv] ++ fx.trace⟩
    | some bs =>
      if bs.isEmpty then
        let fx := doRequestRefresh refresh last dat
        ⟨true, none, last, fx.lastSt, fx.dat, true, true, some frame,
          tr ++ [.closeConn, .sleepEv] ++ fx.trace⟩
      else
        match pyDecode? bs with
        | none =>
          ⟨false, some .unicodeDecodeErr, last, last, dat, true, false, some frame, tr⟩
        | some _ =>
          let fx := doRequestRefresh refresh last dat
          ⟨true, none, last, fx.lastSt, fx.dat, true, true, some frame,
            tr ++ [.closeConn, .sleepEv] ++ fx.trace⟩

/-- `send_raw_command` (lines 394-433): like the minimal command but the
frame is the caller's string, written verbatim. -/
def sendRawCommand (env : NetEnv) (refresh : Option NetEnv) (last : StateMap)
    (dat : CoordData) (cmdStr : String) : CmdRes :=
  if !env.connectOk then
    ⟨false, some .connectErr, last, last, dat, false, false, some cmdStr, [.openConn]⟩
  else if !initialOk env then
    ⟨false, some .unicodeDecodeErr, last, last, dat, true, false, some cmdStr,
      [.openConn, .readInit]⟩
  else if !env.writeOk then
    ⟨false, some .writeErr, last, last, dat, true, false, some cmdStr,
      [.openConn, .readInit, .writeF cmdStr]⟩
  else
    let tr : List Ev := [.openConn, .readInit, .writeF cmdStr, .readResp]
    match env.responseRead with
    | none =>
      let fx := doRequestRefresh refresh last dat
      ⟨true, none, last, fx.lastSt, fx.dat, true, true, some cmdStr,
        tr ++ [.closeConn, .sleepEv] ++ fx.trace⟩
    | some bs =>
      if bs.isEmpty then
        let fx := doRequestRefresh refresh last dat
        ⟨true, none, last, fx.lastSt, fx.dat, true, true, some cmdStr,
          tr ++ [.closeConn, .sleepEv] ++ fx.trace⟩
      else
        match pyDecode? bs with
        | none =>
          ⟨false, some .unicodeDecodeErr, last, last, dat, true, false, some cmdStr, tr⟩
        | some _ =>
          let fx := doRequestRefresh refresh last dat
          ⟨true, none, last, fx.lastSt, fx.dat, true, true, some cmdStr,
            tr ++ [.closeConn, .sleepEv] ++ fx.trace⟩

/-- The `command_changes` table of `send_exact_command` (lines 374-382). -/
def exactTable : List (String × StateMap) :=
  [("light_on", [("L", jint 2)]), ("light_off", [("L", jint 1)]),
   ("fan_off", [("M", jint 1)]), ("fan_speed_1", [("M", jint 2)]),
   ("fan_speed_2", [("M", jint 3)]), ("fan_speed_3", [("M", jint 4)]),
   ("fan_speed_4", [("M", jint 5)])]

/-- `send_exact_command` (lines 372-392): `status_query` awaits a
refresh (possibly inline, see `doRequestRefresh`) and returns `True`; a
known symbolic name dispatches its delta through `send_smart_command`;
anything else is logged and returns `False` without touching the network
or the state. -/
def sendExactCommand (env : NetEnv) (refresh : Option NetEnv) (last : StateMap)
    (dat : CoordData) (commandType : String) : CmdRes :=
  if commandType = "status_query" then
    let fx := doRequestRefresh refresh last dat
    ⟨true, none, last, fx.lastSt, fx.dat, false, false, none, fx.trace⟩
  else
    match exactTable.find? (fun kv => kv.1 = commandType) with
    | some (_, delta) => sendSmartCommand env refresh last dat delta
    | none => ⟨false, none, last, last, dat, false, false, none, []⟩

/-- The decoded device reply of an environment, when the response is
present, UTF-8 decodable and parseable JSON. -/
def replyVal (env : NetEnv) : Option JVal :=
  match env.responseRead with
  | none => none
  | some bs =>
    match pyDecode? bs with
    | none => none
    | some s => jsonLoads (pyStrip s)

/-! ## Brightness conversions (`light.py` lines 76-86) -/

/-- `_convert_brightness_to_device`: HA brightness 0-255 to the device
range.  Python computes `int(161 + ha * 9 / 255)` in floats; for
0 ≤ ha ≤ 255 every intermediate is at least 1/255 away from the next
integer except where the quotient is exact, so the truncation equals the
integer division modelled here. -/
def convertBrightnessToDevice (ha : Nat) : Nat :=
  if ha = 0 then 161 else 161 + ha * 9 / 255

/-- `_convert_brightness_from_device`: device brightness to the HA range,
`int((d - 161) * 255 / 9)`, exact by the same float-margin argument. -/
def convertBrightnessFromDevice (d : Nat) : Nat :=
  if d ≤ 161 then 1 else (d - 161) * 255 / 9

/-! ## Helper predicates and concrete environments used in the theorems -/

/-- Whether an exchange result is a normal return (no raised exception). -/
def resOk : Except PyErr QueryOut → Bool
  | .ok _ => true
  | .error _ => false

/-- An exchange whose device reply is the JSON object `'\x7b"M": 2\x7d'`
after the usual `okidargb` greeting. -/
def envReplyM2 : NetEnv := ⟨true, some (strB "okidargb"), true, some (strB "\x7b\"M\": 2\x7d")⟩

/-- An exchange whose response read times out. -/
def envRespTimeout : NetEnv := ⟨true, some (strB "okidargb"), true, none⟩

/-- An exchange answered by a single invalid UTF-8 byte. -/
def envBadUtf8 : NetEnv := ⟨true, some (strB "okidargb"), true, some [255]⟩

/-- An exchange answered by the JSON array `[1,2,3]`. -/
def envBadArr : NetEnv := ⟨true, some (strB "okidargb"), true, some (strB "[1,2,3]")⟩

/-- An exchange answered by the JSON array `[["X", 9], 7]`, whose merge
into a dict applies its first pair and then raises. -/
def envSeqPair : NetEnv := ⟨true, some (strB "okidargb"), true, some (strB "[[\"X\", 9], 7]")⟩

/-- An exchange answered by bytes that are valid UTF-8 but not JSON. -/
def envGarbage : NetEnv := ⟨true, some (strB "okidargb"), true, some (strB "not json")⟩

/-- An exchange whose connection attempt times out. -/
def envConnFail : NetEnv := ⟨false, none, true, none⟩

/-- The delta of the `light_on` symbolic command. -/
def lightOnDelta : StateMap := [("L", jint 2)]

/-- The frame `send_smart_command` emits for `light_on` from the seeded
default state. -/
def lightOnFrame : String :=
  "\x7b\"M\": 1, \"L\": 2, \"R\": 45, \"G\": 255, \"B\": 104, \"CW\": 110, \"BRG\": 132, \"T\": 0, \"TM\": 0, \"TS\": 0, \"A\": 1\x7d\r"

/-! ## Lemmas about the dict operations -/

theorem mapGet?_mapSet_ne (m : StateMap) (k' k : String) (v : JVal) (h : k' ≠ k) :
    mapGet? (mapSet m k' v) k = mapGet? m k := by
  induction m with
  | nil => simp [mapSet, mapGet?, h]
  | cons kv rest ih =>
    obtain ⟨a, b⟩ := kv
    by_cases hak : a = k'
    · subst hak
      simp [mapSet, mapGet?, h]
    · simp only [mapSet, if_neg hak]
      by_cases hk : a = k <;> simp [mapGet?, hk, ih]

theorem mapGet?_updObj_not_mem (fields : List (String × JVal)) (m : StateMap) (k : String)
    (h : k ∉ fields.map Prod.fst) :
    mapGet? (updObj m fields) k = mapGet? m k := by
  induction fields generalizing m with
  | nil => rfl
  | cons f rest ih =>
    simp only [List.map_cons, List.mem_cons, not_or] at h
    have step : updObj m (f :: rest) = updObj (mapSet m f.1 f.2) rest := rfl
    rw [step, ih _ h.2, mapGet?_mapSet_ne _ _ _ _ (fun hh => h.1 hh.symm)]

theorem mapGet?_cleanFilter_mem (ks : List String) (m : StateMap) (k : String) (v : JVal)
    (hk : k ∈ ks) (hv : mapGet? m k = some v) :
    mapGet? (cleanFilter ks m) k = some v := by
  induction ks with
  | nil => cases hk
  | cons k0 rest ih =>
    by_cases h0 : k0 = k
    · subst h0
      simp [cleanFilter, hv, mapGet?]
    · have hk' : k ∈ rest := by
        rcases List.mem_cons.mp hk with h | h
        · exact absurd h.symm h0
        · exact h
      cases hg : mapGet? m k0 with
      | none => simpa [cleanFilter, hg] using ih hk'
      | some v0 => simpa [cleanFilter, hg, mapGet?, h0] using ih hk'

/-! ## Claims -/

/-- C9: for every HA brightness in [0,255], `_convert_brightness_to_device`
lands in the device range [161,170]; for every device brightness in
[161,170], `_convert_brightness_from_device` lands in [1,255] and is
monotonically non-decreasing. -/
theorem brightness_conversions_ranges_and_monotone :
    (∀ ha : Nat, ha ≤ 255 →
      161 ≤ convertBrightnessToDevice ha ∧ convertBrightnessToDevice ha ≤ 170)
    ∧ (∀ d : Nat, 161 ≤ d → d ≤ 170 →
      1 ≤ convertBrightnessFromDevice d ∧ convertBrightnessFromDevice d ≤ 255)
    ∧ (∀ d e : Nat, 161 ≤ d → d ≤ e → e ≤ 170 →
      convertBrightnessFromDevice d ≤ convertBrightnessFromDevice e) := by
  refine ⟨?_, ?_, ?_⟩
  · intro ha h
    unfold convertBrightnessToDevice
    split <;> omega
  · intro d h1 h2
    unfold convertBrightnessFromDevice
    split <;> omega
  · intro d e h1 hde h2
    unfold convertBrightnessFromDevice
    split <;> split <;> omega

/-- C9 witness: the conversions evaluated inside their ranges. -/
theorem brightness_conversions_witness :
    (161 ≤ convertBrightnessToDevice 200 ∧ convertBrightnessToDevice 200 ≤ 170)
    ∧ (1 ≤ convertBrightnessFromDevice 165 ∧ convertBrightnessFromDevice 165 ≤ 255)
    ∧ convertBrightnessFromDevice 163 ≤ convertBrightnessFromDevice 168 :=
  ⟨brightness_conversions_ranges_and_monotone.1 200 (by decide),
   brightness_conversions_ranges_and_monotone.2.1 165 (by decide) (by decide),
   brightness_conversions_ranges_and_monotone.2.2 163 168 (by decide) (by decide) (by decide)⟩

/-- C10: for every command type outside the fixed symbolic set,
`send_exact_command` returns `False` without opening a connection and
without touching the stored state. -/
theorem send_exact_unknown_type_noop :
    ∀ (env : NetEnv) (refresh : Option NetEnv) (last : StateMap) (dat : CoordData)
      (commandType : String),
    commandType ∉ ["light_on", "light_off", "fan_off", "fan_speed_1", "fan_speed_2",
      "fan_speed_3", "fan_speed_4", "status_query"] →
    sendExactCommand env refresh last dat commandType =
      ⟨false, none, last, last, dat, false, false, none, []⟩ := by
  intro env refresh last dat ct h
  simp only [List.mem_cons, List.not_mem_nil, or_false, not_or] at h
  obtain ⟨h1, h2, h3, h4, h5, h6, h7, h8⟩ := h
  have hfind : exactTable.find? (fun kv => kv.1 = ct) = none := by
    rw [List.find?_eq_none]
    intro x hx
    fin_cases hx <;>
      simp_all [Ne.symm h1, Ne.symm h2, Ne.symm h3, Ne.symm h4, Ne.symm h5,
        Ne.symm h6, Ne.symm h7]
  simp [sendExactCommand, h8, hfind]

/-- C10 witness: the unknown command type `"bogus"` is rejected without
side effects. -/
theorem send_exact_unknown_type_noop_witness :
    sendExactCommand envConnFail none defaultState .noneD "bogus" =
      ⟨false, none, defaultState, defaultState, .noneD, false, false, none, []⟩ :=
  send_exact_unknown_type_noop envConnFail none defaultState .noneD "bogus" (by decide)

/-- C1 counterexample: a status query decoded the reply `\x7b"M": 2\x7d`,
a mapping that does not contain the key `"L"`.  Before the merge the
snapshot visible through `current_state` mapped `"L"` to `1`; after the
tick the coordinator's data is the decoded reply itself, so `"L"` has
disappeared from the visible snapshot even though the reply never
mentioned it. -/
theorem merge_visible_snapshot_counterexample :
    replyVal envReplyM2 = some (jobj [("M", jint 2)])
    ∧ "L" ∉ ([("M", jint 2)] : StateMap).map Prod.fst
    ∧ getView (currentStateView .noneD defaultState) "L" = some (jint 1)
    ∧ (asyncUpdateData envReplyM2 defaultState).dat = .val (jobj [("M", jint 2)])
    ∧ getView (currentStateView (asyncUpdateData envReplyM2 defaultState).dat
        (asyncUpdateData envReplyM2 defaultState).lastSt) "L" = none :=
  ⟨rfl, by decide, rfl, rfl, rfl⟩

/-- C1 amended: merging a decoded device reply `p` changes only the keys
present in `p` in the coordinator's internal `_last_state` store — every
key not in `p` keeps its prior value there, both in the status query and
in the command dispatch; the invariant fails only for the snapshot
visible through `current_state` after a status query, whose data becomes
the reply object itself. -/
theorem merge_preserves_last_state :
    ∀ (env : NetEnv) (refresh : Option NetEnv) (last : StateMap) (dat : CoordData)
      (changes : StateMap) (p : List (String × JVal)) (k : String),
    replyVal env = some (jobj p) → k ∉ p.map Prod.fst →
    mapGet? (queryCurrentStatus env last).lastSt k = mapGet? last k
    ∧ mapGet? (sendSmartCommand env refresh last dat changes).lastMerged k = mapGet? last k
    ∧ (refresh = none →
      mapGet? (sendSmartCommand env refresh last dat changes).lastSt k = mapGet? last k) := by
  intro env refresh last dat changes p k hp hk
  rcases hrr : env.responseRead with _ | bs
  · simp [replyVal, hrr] at hp
  · rcases hdec : pyDecode? bs with _ | s
    · simp [replyVal, hrr, hdec] at hp
    · simp only [replyVal, hrr, hdec] at hp
      have hbe : bs.isEmpty = false := by
        cases hbs : bs.isEmpty
        · rfl
        · exfalso
          have hnil : bs = [] := List.isEmpty_iff.mp hbs
          subst hnil
          have hs : s = "" := by
            have h0 : pyDecode? ([] : Bytes) = some "" := rfl
            rw [h0] at hdec
            exact (Option.some.inj hdec).symm
          subst hs
          rw [show jsonLoads (pyStrip "") = none from rfl] at hp
          cases hp
      refine ⟨?_, ?_, ?_⟩
      · cases hco : env.connectOk
        · simp [queryCurrentStatus, hco]
        · cases hio : initialOk env
          · simp [queryCurrentStatus, hco, hio]
          · cases hwo : env.writeOk
            · simp [queryCurrentStatus, hco, hio, hwo]
            · simp [queryCurrentStatus, hco, hio, hwo, hrr, hbe, hdec, hp, dictUpdate]
              exact mapGet?_updObj_not_mem p last k hk
      · rcases hcs : currentStateMap dat last with _ | m
        · simp [sendSmartCommand, hcs]
        · cases hco : env.connectOk
          · simp [sendSmartCommand, hcs, hco]
          · cases hio : initialOk env
            · simp [sendSmartCommand, hcs, hco, hio]
            · cases hwo : env.writeOk
              · simp [sendSmartCommand, hcs, hco, hio, hwo]
              · simp [sendSmartCommand, hcs, hco, hio, hwo, hrr, hbe, hdec, hp, dictUpdate]
                exact mapGet?_updObj_not_mem p last k hk
      · intro hr
        subst hr
        rcases hcs : currentStateMap dat last with _ | m
        · simp [sendSmartCommand, hcs]
        · cases hco : env.connectOk
          · simp [sendSmartCommand, hcs, hco]
          · cases hio : initialOk env
            · simp [sendSmartCommand, hcs, hco, hio]
            · cases hwo : env.writeOk
              · simp [sendSmartCommand, hcs, hco, hio, hwo]
              · simp [sendSmartCommand, hcs, hco, hio, hwo, hrr, hbe, hdec, hp,
                  dictUpdate, doRequestRefresh]
                exact mapGet?_updObj_not_mem p last k hk

/-- C1 witness: with the reply `\x7b"M": 2\x7d`, the stored `_last_state`
keeps `"L"` unchanged through both the status query and a dispatch
(refresh deferred by the debouncer cooldown). -/
theorem merge_preserves_last_state_witness :
    mapGet? (queryCurrentStatus envReplyM2 defaultState).lastSt "L" = mapGet? defaultState "L"
    ∧ mapGet? (sendSmartCommand envReplyM2 none defaultState .noneD lightOnDelta).lastSt "L"
      = mapGet? defaultState "L" :=
  ⟨(merge_preserves_last_state envReplyM2 none defaultState .noneD lightOnDelta
      [("M", jint 2)] "L" rfl (by decide)).1,
   (merge_preserves_last_state envReplyM2 none defaultState .noneD lightOnDelta
      [("M", jint 2)] "L" rfl (by decide)).2.2 rfl⟩

/-- C8 counterexample: the device reply `[["X", 9], 7]` parses as a JSON
array; merging it applies the pair `("X", 9)` and then raises `TypeError`
on the element `7`, so the tick fails — yet `_async_update_data` returns
a `_last_state` that now carries `X = 9`, not the unchanged last good
snapshot. -/
theorem failing_tick_mutates_state_counterexample :
    (queryCurrentStatus envSeqPair defaultState).result = .error .typeErr
    ∧ mapGet? defaultState "X" = none
    ∧ mapGet? (asyncUpdateData envSeqPair defaultState).lastSt "X" = some (jint 9)
    ∧ (asyncUpdateData envSeqPair defaultState).dat = .aliased :=
  ⟨rfl, rfl, rfl, rfl⟩

/-- C8 amended: on every failing poll tick whose reply is not a JSON
array, `_async_update_data` suppresses the error and returns the last
good state snapshot unchanged (as an alias of `_last_state`), leaving the
poller eligible for the next tick; only an array-shaped reply can leave a
partially applied merge behind. -/
theorem failing_tick_keeps_state :
    ∀ (env : NetEnv) (last : StateMap),
    (∀ xs, replyVal env ≠ some (jarr xs)) →
    ∀ e, (queryCurrentStatus env last).result = .error e →
    (asyncUpdateData env last).lastSt = last ∧ (asyncUpdateData env last).dat = .aliased := by
  intro env last hnp e herr
  have hlast : (queryCurrentStatus env last).lastSt = last := by
    cases hco : env.connectOk
    · simp [queryCurrentStatus, hco]
    · cases hio : initialOk env
      · simp [queryCurrentStatus, hco, hio]
      · cases hwo : env.writeOk
        · simp [queryCurrentStatus, hco, hio, hwo]
        · rcases hrr : env.responseRead with _ | bs
          · simp [queryCurrentStatus, hco, hio, hwo, hrr]
          · cases hbe : bs.isEmpty
            · rcases hdec : pyDecode? bs with _ | s
              · simp [queryCurrentStatus, hco, hio, hwo, hrr, hbe, hdec]
              · rcases hload : jsonLoads (pyStrip s) with _ | v
                · simp [queryCurrentStatus, hco, hio, hwo, hrr, hbe, hdec, hload]
                · have hrv : replyVal env = some v := by
                    simp [replyVal, hrr, hdec, hload]
                  cases v with
                  | jnull =>
                    simp [queryCurrentStatus, hco, hio, hwo, hrr, hbe, hdec, hload, dictUpdate]
                  | jbool b =>
                    simp [queryCurrentStatus, hco, hio, hwo, hrr, hbe, hdec, hload, dictUpdate]
                  | jint n =>
                    simp [queryCurrentStatus, hco, hio, hwo, hrr, hbe, hdec, hload, dictUpdate]
                  | jnum lit =>
                    simp [queryCurrentStatus, hco, hio, hwo, hrr, hbe, hdec, hload, dictUpdate]
                  | jstr s' =>
                    cases hse : s'.isEmpty
                    · simp [queryCurrentStatus, hco, hio, hwo, hrr, hbe, hdec, hload,
                        dictUpdate, hse]
                    · exfalso
                      simp [queryCurrentStatus, hco, hio, hwo, hrr, hbe, hdec, hload,
                        dictUpdate, hse] at herr
                  | jarr items => exact absurd hrv (hnp items)
                  | jobj fields =>
                    exfalso
                    simp [queryCurrentStatus, hco, hio, hwo, hrr, hbe, hdec, hload,
                      dictUpdate] at herr
            · simp [queryCurrentStatus, hco, hio, hwo, hrr, hbe]
  refine ⟨?_, ?_⟩ <;> simp [asyncUpdateData, herr, hlast]

/-- C8 witness: a tick whose connection attempt fails returns the seeded
defaults untouched. -/
theorem failing_tick_keeps_state_witness :
    (asyncUpdateData envConnFail defaultState).lastSt = defaultState
    ∧ (asyncUpdateData envConnFail defaultState).dat = .aliased :=
  failing_tick_keeps_state envConnFail defaultState
    (fun xs h => by simp [replyVal, envConnFail] at h) .connectErr rfl

/-- A response that decoded and parsed cannot have been the empty byte
string, since the empty string is not valid JSON. -/
theorem reply_nonempty (bs : Bytes) (s : String) (v : JVal)
    (hdec : pyDecode? bs = some s) (hload : jsonLoads (pyStrip s) = some v) :
    bs.isEmpty = false := by
  cases hbs : bs.isEmpty
  · rfl
  · exfalso
    have hnil : bs = [] := List.isEmpty_iff.mp hbs
    subst hnil
    have h0 : pyDecode? ([] : Bytes) = some "" := rfl
    rw [h0] at hdec
    have hs : s = "" := (Option.some.inj hdec).symm
    subst hs
    rw [show jsonLoads (pyStrip "") = none from rfl] at hload
    cases hload

/-- C2 counterexample: when the response read of `_query_current_status`
times out, the `asyncio.TimeoutError` propagates before the
`writer.close()` at line 228 is reached — the exchange terminates with
its opened socket never closed. -/
theorem socket_leak_counterexample :
    (queryCurrentStatus envRespTimeout defaultState).opened = true
    ∧ (queryCurrentStatus envRespTimeout defaultState).closed = false
    ∧ (queryCurrentStatus envRespTimeout defaultState).result = .error .timeoutErr :=
  ⟨rfl, rfl, rfl⟩

/-- C2 amended: on every exit path on which no exception propagates — and
in `send_smart_command` also on the caught response-read timeout — the
opened connection is closed before the operation returns; but exits where
an exception is raised between the open and the close line (notably the
response-read timeout of `_query_current_status`) leave the socket
unclosed. -/
theorem close_on_normal_exit :
    ∀ (env : NetEnv) (refresh : Option NetEnv) (last : StateMap) (dat : CoordData)
      (changes : StateMap),
    (resOk (queryCurrentStatus env last).result = true →
      (queryCurrentStatus env last).closed = true)
    ∧ ((sendSmartCommand env refresh last dat changes).ok = true →
      (sendSmartCommand env refresh last dat changes).closed = true)
    ∧ (env.connectOk = true → initialOk env = true → env.writeOk = true →
      env.responseRead = none → (currentStateMap dat last).isSome = true →
      (sendSmartCommand env refresh last dat changes).closed = true) := by
  intro env refresh last dat changes
  refine ⟨?_, ?_, ?_⟩
  · intro h
    cases hco : env.connectOk
    · simp [queryCurrentStatus, hco, resOk] at h
    · cases hio : initialOk env
      · simp [queryCurrentStatus, hco, hio, resOk] at h
      · cases hwo : env.writeOk
        · simp [queryCurrentStatus, hco, hio, hwo, resOk] at h
        · rcases hrr : env.responseRead with _ | bs
          · simp [queryCurrentStatus, hco, hio, hwo, hrr, resOk] at h
          · cases hbe : bs.isEmpty
            · rcases hdec : pyDecode? bs with _ | s
              · simp [queryCurrentStatus, hco, hio, hwo, hrr, hbe, hdec]
              · rcases hload : jsonLoads (pyStrip s) with _ | v
                · simp [queryCurrentStatus, hco, hio, hwo, hrr, hbe, hdec, hload]
                · rcases hupd : dictUpdate last v with ⟨oe, l2⟩
                  cases oe <;>
                    simp [queryCurrentStatus, hco, hio, hwo, hrr, hbe, hdec, hload, hupd]
            · simp [queryCurrentStatus, hco, hio, hwo, hrr, hbe]
  · intro h
    rcases hcs : currentStateMap dat last with _ | m
    · simp [sendSmartCommand, hcs] at h
    · cases hco : env.connectOk
      · simp [sendSmartCommand, hcs, hco] at h
      · cases hio : initialOk env
        · simp [sendSmartCommand, hcs, hco, hio] at h
        · cases hwo : env.writeOk
          · simp [sendSmartCommand, hcs, hco, hio, hwo] at h
          · rcases hrr : env.responseRead with _ | bs
            · simp [sendSmartCommand, hcs, hco, hio, hwo, hrr]
            · cases hbe : bs.isEmpty
              · rcases hdec : pyDecode? bs with _ | s
                · simp [sendSmartCommand, hcs, hco, hio, hwo, hrr, hbe, hdec] at h
                · rcases hload : jsonLoads (pyStrip s) with _ | v
                  · simp [sendSmartCommand, hcs, hco, hio, hwo, hrr, hbe, hdec, hload]
                  · rcases hupd : dictUpdate last v with ⟨oe, l2⟩
                    cases oe
                    · simp [sendSmartCommand, hcs, hco, hio, hwo, hrr, hbe, hdec, hload, hupd]
                    · simp [sendSmartCommand, hcs, hco, hio, hwo, hrr, hbe, hdec, hload,
                        hupd] at h
              · simp [sendSmartCommand, hcs, hco, hio, hwo, hrr, hbe]
  · intro hco hio hwo hrr hdat
    rcases hcs : currentStateMap dat last with _ | m
    · rw [hcs] at hdat; cases hdat
    · simp [sendSmartCommand, hcs, hco, hio, hwo, hrr]

/-- C2 witness: the dispatch path with a caught response timeout closes
its socket. -/
theorem close_on_normal_exit_witness :
    (sendSmartCommand envRespTimeout none defaultState .noneD lightOnDelta).closed = true :=
  (close_on_normal_exit envRespTimeout none defaultState .noneD lightOnDelta).2.2
    rfl rfl rfl rfl rfl

/-- C3 counterexample: a reply of the single invalid byte `0xFF` raises
`UnicodeDecodeError` out of the decode — the status query aborts with
`UpdateFailed` and the dispatch reports failure; the JSON array `[1,2,3]`
likewise raises `TypeError` when merged.  Decode failures other than
`json.JSONDecodeError` do abort the operation. -/
theorem decode_failure_raises_counterexample :
    (queryCurrentStatus envBadUtf8 defaultState).result = .error .unicodeDecodeErr
    ∧ (sendSmartCommand envBadUtf8 none defaultState .noneD lightOnDelta).ok = false
    ∧ (queryCurrentStatus envBadArr defaultState).result = .error .typeErr
    ∧ (sendSmartCommand envBadArr none defaultState .noneD lightOnDelta).ok = false :=
  ⟨rfl, rfl, rfl, rfl⟩

/-- C3 amended: response bytes that decode as UTF-8 but fail JSON parsing
(`json.JSONDecodeError`) are treated as no value — the status query
returns the previous state and the dispatch still succeeds, merging its
local delta; only non-UTF8 bytes or parsed non-object values abort the
exchange. -/
theorem malformed_json_tolerated :
    ∀ (env : NetEnv) (refresh : Option NetEnv) (last : StateMap) (dat : CoordData)
      (changes : StateMap) (bs : Bytes) (s : String),
    env.responseRead = some bs → bs.isEmpty = false → pyDecode? bs = some s →
    jsonLoads (pyStrip s) = none →
    (env.connectOk = true → initialOk env = true → env.writeOk = true →
      (queryCurrentStatus env last).result = .ok .lastRef
      ∧ (queryCurrentStatus env last).lastSt = last)
    ∧ (∀ m, currentStateMap dat last = some m →
      env.connectOk = true → initialOk env = true → env.writeOk = true →
      (sendSmartCommand env refresh last dat changes).ok = true
      ∧ (sendSmartCommand env refresh last dat changes).lastMerged = updObj last changes
      ∧ (refresh = none →
        (sendSmartCommand env refresh last dat changes).lastSt = updObj last changes)) := by
  intro env refresh last dat changes bs s hrr hbe hdec hload
  constructor
  · intro hco hio hwo
    constructor <;> simp [queryCurrentStatus, hco, hio, hwo, hrr, hbe, hdec, hload]
  · intro m hcs hco hio hwo
    refine ⟨?_, ?_, ?_⟩
    · simp [sendSmartCommand, hcs, hco, hio, hwo, hrr, hbe, hdec, hload]
    · simp [sendSmartCommand, hcs, hco, hio, hwo, hrr, hbe, hdec, hload]
    · intro hr
      subst hr
      simp [sendSmartCommand, hcs, hco, hio, hwo, hrr, hbe, hdec, hload, doRequestRefresh]

/-- C3 witness: the undecodable reply `"not json"` leaves the query state
intact and the dispatch successful. -/
theorem malformed_json_tolerated_witness :
    (queryCurrentStatus envGarbage defaultState).result = .ok .lastRef
    ∧ (sendSmartCommand envGarbage none defaultState .noneD lightOnDelta).ok = true :=
  ⟨((malformed_json_tolerated envGarbage none defaultState .noneD lightOnDelta
      (strB "not json") "not json" rfl rfl rfl rfl).1 rfl rfl rfl).1,
   ((malformed_json_tolerated envGarbage none defaultState .noneD lightOnDelta
      (strB "not json") "not json" rfl rfl rfl rfl).2 defaultState rfl rfl rfl rfl).1⟩

/-- C4: a response-read timeout of `send_smart_command` is caught — the
dispatch still returns `True` and merges the locally applied delta; if a
decodable JSON-object reply arrives instead, the decoded reply is merged
in its place. -/
theorem dispatch_timeout_and_reply_merge :
    ∀ (env : NetEnv) (refresh : Option NetEnv) (last : StateMap) (dat : CoordData)
      (changes : StateMap) (m : StateMap),
    currentStateMap dat last = some m →
    env.connectOk = true → initialOk env = true → env.writeOk = true →
    (env.responseRead = none →
      (sendSmartCommand env refresh last dat changes).ok = true
      ∧ (sendSmartCommand env refresh last dat changes).lastMerged = updObj last changes
      ∧ (refresh = none →
        (sendSmartCommand env refresh last dat changes).lastSt = updObj last changes))
    ∧ (∀ p, replyVal env = some (jobj p) →
      (sendSmartCommand env refresh last dat changes).ok = true
      ∧ (sendSmartCommand env refresh last dat changes).lastMerged = updObj last p
      ∧ (refresh = none →
        (sendSmartCommand env refresh last dat changes).lastSt = updObj last p)) := by
  intro env refresh last dat changes m hcs hco hio hwo
  constructor
  · intro hrr
    refine ⟨?_, ?_, ?_⟩
    · simp [sendSmartCommand, hcs, hco, hio, hwo, hrr]
    · simp [sendSmartCommand, hcs, hco, hio, hwo, hrr]
    · intro hr
      subst hr
      simp [sendSmartCommand, hcs, hco, hio, hwo, hrr, doRequestRefresh]
  · intro p hp
    rcases hrr : env.responseRead with _ | bs
    · simp [replyVal, hrr] at hp
    · rcases hdec : pyDecode? bs with _ | s
      · simp [replyVal, hrr, hdec] at hp
      · simp only [replyVal, hrr, hdec] at hp
        have hbe : bs.isEmpty = false := reply_nonempty bs s (jobj p) hdec hp
        refine ⟨?_, ?_, ?_⟩
        · simp [sendSmartCommand, hcs, hco, hio, hwo, hrr, hbe, hdec, hp, dictUpdate]
        · simp [sendSmartCommand, hcs, hco, hio, hwo, hrr, hbe, hdec, hp, dictUpdate]
        · intro hr
          subst hr
          simp [sendSmartCommand, hcs, hco, hio, hwo, hrr, hbe, hdec, hp, dictUpdate,
            doRequestRefresh]

/-- C4 witness: the timeout path merges the delta and the reply path
merges the decoded reply, both returning `True` (refresh deferred by the
debouncer cooldown). -/
theorem dispatch_timeout_and_reply_merge_witness :
    ((sendSmartCommand envRespTimeout none defaultState .noneD lightOnDelta).ok = true
      ∧ (sendSmartCommand envRespTimeout none defaultState .noneD lightOnDelta).lastSt
        = updObj defaultState lightOnDelta)
    ∧ ((sendSmartCommand envReplyM2 none defaultState .noneD lightOnDelta).ok = true
      ∧ (sendSmartCommand envReplyM2 none defaultState .noneD lightOnDelta).lastSt
        = updObj defaultState [("M", jint 2)]) :=
  ⟨⟨((dispatch_timeout_and_reply_merge envRespTimeout none defaultState .noneD
        lightOnDelta defaultState rfl rfl rfl rfl).1 rfl).1,
    ((dispatch_timeout_and_reply_merge envRespTimeout none defaultState .noneD
        lightOnDelta defaultState rfl rfl rfl rfl).1 rfl).2.2 rfl⟩,
   ⟨((dispatch_timeout_and_reply_merge envReplyM2 none defaultState .noneD
        lightOnDelta defaultState rfl rfl rfl rfl).2 [("M", jint 2)] rfl).1,
    ((dispatch_timeout_and_reply_merge envReplyM2 none defaultState .noneD
        lightOnDelta defaultState rfl rfl rfl rfl).2 [("M", jint 2)] rfl).2.2 rfl⟩⟩

set_option maxRecDepth 8192 in
/-- C5 counterexample: the seeded snapshot carries `LM = 0` and the
`light_on` delta does not override it, yet the emitted frame omits `LM`
entirely — the `clean_state` loop keeps only its eleven whitelisted keys,
so not every retained field of the snapshot appears in the frame. -/
theorem frame_drops_retained_field_counterexample :
    mapGet? defaultState "LM" = some (jint 0)
    ∧ "LM" ∉ lightOnDelta.map Prod.fst
    ∧ (sendSmartCommand envRespTimeout none defaultState .noneD lightOnDelta).frame
      = some lightOnFrame
    ∧ mapGet? (cleanStateOf (updObj defaultState lightOnDelta)) "LM" = none
    ∧ ¬ ("LM".data <:+: lightOnFrame.data) :=
  ⟨rfl, by decide, rfl, rfl, by decide⟩

/-- C5 amended: the frame of `send_smart_command` is the current snapshot
with the delta applied on top, restricted to the fixed key list
`["M","L","R","G","B","CW","BRG","T","TM","TS","A"]` and serialized as
one JSON object terminated by a carriage return — every whitelisted field
of the snapshot not overridden by the delta appears with its retained
value; fields outside that list are dropped. -/
theorem frame_keeps_whitelisted_fields :
    ∀ (env : NetEnv) (refresh : Option NetEnv) (last : StateMap) (dat : CoordData)
      (changes : StateMap) (m : StateMap) (k : String) (v : JVal),
    currentStateMap dat last = some m →
    k ∈ cleanKeys → k ∉ changes.map Prod.fst → mapGet? m k = some v →
    mapGet? (cleanStateOf (updObj m changes)) k = some v
    ∧ (sendSmartCommand env refresh last dat changes).frame = some (smartFrame m changes) := by
  intro env refresh last dat changes m k v hcs hk hnc hv
  constructor
  · exact mapGet?_cleanFilter_mem cleanKeys (updObj m changes) k v hk
      (by rw [mapGet?_updObj_not_mem changes m k hnc]; exact hv)
  · cases hco : env.connectOk
    · simp [sendSmartCommand, hcs, hco]
    · cases hio : initialOk env
      · simp [sendSmartCommand, hcs, hco, hio]
      · cases hwo : env.writeOk
        · simp [sendSmartCommand, hcs, hco, hio, hwo]
        · rcases hrr : env.responseRead with _ | bs
          · simp [sendSmartCommand, hcs, hco, hio, hwo, hrr]
          · cases hbe : bs.isEmpty
            · rcases hdec : pyDecode? bs with _ | s
              · simp [sendSmartCommand, hcs, hco, hio, hwo, hrr, hbe, hdec]
              · rcases hload : jsonLoads (pyStrip s) with _ | w
                · simp [sendSmartCommand, hcs, hco, hio, hwo, hrr, hbe, hdec, hload]
                · rcases hupd : dictUpdate last w with ⟨oe, l2⟩
                  cases oe <;>
                    simp [sendSmartCommand, hcs, hco, hio, hwo, hrr, hbe, hdec, hload, hupd]
            · simp [sendSmartCommand, hcs, hco, hio, hwo, hrr, hbe]

/-- C5 witness: the whitelisted `CW` field survives the `light_on` frame
with its retained value. -/
theorem frame_keeps_whitelisted_fields_witness :
    mapGet? (cleanStateOf (updObj defaultState lightOnDelta)) "CW" = some (jint 110)
    ∧ (sendSmartCommand envRespTimeout none defaultState .noneD lightOnDelta).frame
      = some (smartFrame defaultState lightOnDelta) :=
  frame_keeps_whitelisted_fields envRespTimeout none defaultState .noneD lightOnDelta
    defaultState "CW" (jint 110) rfl (by decide) (by decide) rfl

/-- `_query_current_status` performs at most one open and one write per
invocation. -/
theorem query_trace_counts (env : NetEnv) (last : StateMap) :
    (queryCurrentStatus env last).trace.countP isOpenEv ≤ 1
    ∧ (queryCurrentStatus env last).trace.countP isWriteEv ≤ 1 := by
  cases hco : env.connectOk
  · simp [queryCurrentStatus, hco, List.countP_cons, List.countP_nil, isOpenEv, isWriteEv]
  · cases hio : initialOk env
    · simp [queryCurrentStatus, hco, hio, List.countP_cons, List.countP_nil,
        isOpenEv, isWriteEv]
    · cases hwo : env.writeOk
      · simp [queryCurrentStatus, hco, hio, hwo, List.countP_cons, List.countP_nil,
          isOpenEv, isWriteEv]
      · rcases hrr : env.responseRead with _ | bs
        · simp [queryCurrentStatus, hco, hio, hwo, hrr, List.countP_cons,
            List.countP_nil, isOpenEv, isWriteEv]
        · cases hbe : bs.isEmpty
          · rcases hdec : pyDecode? bs with _ | s
            · simp [queryCurrentStatus, hco, hio, hwo, hrr, hbe, hdec,
                List.countP_cons, List.countP_nil, isOpenEv, isWriteEv]
            · rcases hload : jsonLoads (pyStrip s) with _ | v
              · simp [queryCurrentStatus, hco, hio, hwo, hrr, hbe, hdec, hload,
                  List.countP_cons, List.countP_nil, isOpenEv, isWriteEv]
              · rcases hupd : dictUpdate last v with ⟨oe, l2⟩
                cases oe <;>
                  simp [queryCurrentStatus, hco, hio, hwo, hrr, hbe, hdec, hload,
                    hupd, List.countP_cons, List.countP_nil, isOpenEv, isWriteEv]
          · simp [queryCurrentStatus, hco, hio, hwo, hrr, hbe, List.countP_cons,
              List.countP_nil, isOpenEv, isWriteEv]

/-- The awaited refresh contributes no open or write when deferred, and
at most one of each when the debouncer runs the status query inline. -/
theorem refresh_trace_counts (refresh : Option NetEnv) (last : StateMap)
    (dat : CoordData) :
    (doRequestRefresh refresh last dat).trace.countP isOpenEv ≤ 1
    ∧ (doRequestRefresh refresh last dat).trace.countP isWriteEv ≤ 1 := by
  rcases refresh with _ | renv
  · simp [doRequestRefresh, List.countP_cons, List.countP_nil, isOpenEv, isWriteEv]
  · have h := query_trace_counts renv last
    simpa [doRequestRefresh, List.countP_cons, isOpenEv, isWriteEv] using h

/-- With the refresh deferred, `send_smart_command` attempts at most one
connection and one write of its own, exactly one connection once the
dispatch reaches the network. -/
theorem smart_own_trace_counts (env : NetEnv) (last : StateMap) (dat : CoordData)
    (changes : StateMap) :
    (sendSmartCommand env none last dat changes).trace.countP isOpenEv ≤ 1
    ∧ (sendSmartCommand env none last dat changes).trace.countP isWriteEv ≤ 1
    ∧ ((currentStateMap dat last).isSome = true →
      (sendSmartCommand env none last dat changes).trace.countP isOpenEv = 1) := by
  rcases hcs : currentStateMap dat last with _ | m
  · simp [sendSmartCommand, hcs]
  · cases hco : env.connectOk
    · simp [sendSmartCommand, hcs, hco, List.countP_cons, List.countP_nil,
        isOpenEv, isWriteEv]
    · cases hio : initialOk env
      · simp [sendSmartCommand, hcs, hco, hio, List.countP_cons, List.countP_nil,
          isOpenEv, isWriteEv]
      · cases hwo : env.writeOk
        · simp [sendSmartCommand, hcs, hco, hio, hwo, List.countP_cons, List.countP_nil,
            isOpenEv, isWriteEv]
        · rcases hrr : env.responseRead with _ | bs
          · simp [sendSmartCommand, hcs, hco, hio, hwo, hrr, doRequestRefresh,
              List.countP_append, List.countP_cons, List.countP_nil, isOpenEv, isWriteEv]
          · cases hbe : bs.isEmpty
            · rcases hdec : pyDecode? bs with _ | s
              · simp [sendSmartCommand, hcs, hco, hio, hwo, hrr, hbe, hdec,
                  List.countP_cons, List.countP_nil, isOpenEv, isWriteEv]
              · rcases hload : jsonLoads (pyStrip s) with _ | w
                · simp [sendSmartCommand, hcs, hco, hio, hwo, hrr, hbe, hdec, hload,
                    doRequestRefresh, List.countP_append, List.countP_cons,
                    List.countP_nil, isOpenEv, isWriteEv]
                · rcases hupd : dictUpdate last w with ⟨oe, l2⟩
                  cases oe <;>
                    simp [sendSmartCommand, hcs, hco, hio, hwo, hrr, hbe, hdec, hload,
                      hupd, doRequestRefresh, List.countP_append, List.countP_cons,
                      List.countP_nil, isOpenEv, isWriteEv]
            · simp [sendSmartCommand, hcs, hco, hio, hwo, hrr, hbe, doRequestRefresh,
                List.countP_append, List.countP_cons, List.countP_nil, isOpenEv, isWriteEv]

/-- However the refresh behaves, `send_smart_command` attempts at most
two connections and two writes: its own exchange plus at most the inline
status query. -/
theorem smart_total_trace_counts (env : NetEnv) (refresh : Option NetEnv)
    (last : StateMap) (dat : CoordData) (changes : StateMap) :
    (sendSmartCommand env refresh last dat changes).trace.countP isOpenEv ≤ 2
    ∧ (sendSmartCommand env refresh last dat changes).trace.countP isWriteEv ≤ 2 := by
  rcases hcs : currentStateMap dat last with _ | m
  · simp [sendSmartCommand, hcs]
  · cases hco : env.connectOk
    · simp [sendSmartCommand, hcs, hco, List.countP_cons, List.countP_nil,
        isOpenEv, isWriteEv]
    · cases hio : initialOk env
      · simp [sendSmartCommand, hcs, hco, hio, List.countP_cons, List.countP_nil,
          isOpenEv, isWriteEv]
      · cases hwo : env.writeOk
        · simp [sendSmartCommand, hcs, hco, hio, hwo, List.countP_cons, List.countP_nil,
            isOpenEv, isWriteEv]
        · rcases hrr : env.responseRead with _ | bs
          · have h := refresh_trace_counts refresh (updObj last changes) dat
            constructor <;>
              · simp [sendSmartCommand, hcs, hco, hio, hwo, hrr, List.countP_append,
                  List.countP_cons, List.countP_nil, isOpenEv, isWriteEv]
                omega
          · cases hbe : bs.isEmpty
            · rcases hdec : pyDecode? bs with _ | s
              · simp [sendSmartCommand, hcs, hco, hio, hwo, hrr, hbe, hdec,
                  List.countP_cons, List.countP_nil, isOpenEv, isWriteEv]
              · rcases hload : jsonLoads (pyStrip s) with _ | w
                · have h := refresh_trace_counts refresh (updObj last changes) dat
                  constructor <;>
                    · simp [sendSmartCommand, hcs, hco, hio, hwo, hrr, hbe, hdec, hload,
                        List.countP_append, List.countP_cons, List.countP_nil,
                        isOpenEv, isWriteEv]
                      omega
                · rcases hupd : dictUpdate last w with ⟨oe, l2⟩
                  cases oe
                  · have h := refresh_trace_counts refresh l2 dat
                    constructor <;>
                      · simp [sendSmartCommand, hcs, hco, hio, hwo, hrr, hbe, hdec,
                          hload, hupd, List.countP_append, List.countP_cons,
                          List.countP_nil, isOpenEv, isWriteEv]
                        omega
                  · simp [sendSmartCommand, hcs, hco, hio, hwo, hrr, hbe, hdec, hload,
                      hupd, List.countP_cons, List.countP_nil, isOpenEv, isWriteEv]
            · have h := refresh_trace_counts refresh last dat
              constructor <;>
                · simp [sendSmartCommand, hcs, hco, hio, hwo, hrr, hbe,
                    List.countP_append, List.countP_cons, List.countP_nil,
                    isOpenEv, isWriteEv]
                  omega

/-- With the refresh deferred, `send_minimal_command` attempts exactly
one connection and at most one write of its own. -/
theorem minimal_own_trace_counts (env : NetEnv) (last : StateMap) (dat : CoordData)
    (changes : StateMap) :
    (sendMinimalCommand env none last dat changes).trace.countP isOpenEv = 1
    ∧ (sendMinimalCommand env none last dat changes).trace.countP isWriteEv ≤ 1 := by
  cases hco : env.connectOk
  · simp [sendMinimalCommand, hco, List.countP_cons, List.countP_nil, isOpenEv, isWriteEv]
  · cases hio : initialOk env
    · simp [sendMinimalCommand, hco, hio, List.countP_cons, List.countP_nil,
        isOpenEv, isWriteEv]
    · cases hwo : env.writeOk
      · simp [sendMinimalCommand, hco, hio, hwo, List.countP_cons, List.countP_nil,
          isOpenEv, isWriteEv]
      · rcases hrr : env.responseRead with _ | bs
        · simp [sendMinimalCommand, hco, hio, hwo, hrr, doRequestRefresh,
            List.countP_append, List.countP_cons, List.countP_nil, isOpenEv, isWriteEv]
        · cases hbe : bs.isEmpty
          · rcases hdec : pyDecode? bs with _ | s
            · simp [sendMinimalCommand, hco, hio, hwo, hrr, hbe, hdec,
                List.countP_cons, List.countP_nil, isOpenEv, isWriteEv]
            · simp [sendMinimalCommand, hco, hio, hwo, hrr, hbe, hdec, doRequestRefresh,
                List.countP_append, List.countP_cons, List.countP_nil, isOpenEv, isWriteEv]
          · simp [sendMinimalCommand, hco, hio, hwo, hrr, hbe, doRequestRefresh,
              List.countP_append, List.countP_cons, List.countP_nil, isOpenEv, isWriteEv]

/-- However the refresh behaves, `send_minimal_command` attempts at most
two connections and two writes. -/
theorem minimal_total_trace_counts (env : NetEnv) (refresh : Option NetEnv)
    (last : StateMap) (dat : CoordData) (changes : StateMap) :
    (sendMinimalCommand env refresh last dat changes).trace.countP isOpenEv ≤ 2
    ∧ (sendMinimalCommand env refresh last dat changes).trace.countP isWriteEv ≤ 2 := by
  have h := refresh_trace_counts refresh last dat
  cases hco : env.connectOk
  · simp [sendMinimalCommand, hco, List.countP_cons, List.countP_nil, isOpenEv, isWriteEv]
  · cases hio : initialOk env
    · simp [sendMinimalCommand, hco, hio, List.countP_cons, List.countP_nil,
        isOpenEv, isWriteEv]
    · cases hwo : env.writeOk
      · simp [sendMinimalCommand, hco, hio, hwo, List.countP_cons, List.countP_nil,
          isOpenEv, isWriteEv]
      · rcases hrr : env.responseRead with _ | bs
        · constructor <;>
            · simp [sendMinimalCommand, hco, hio, hwo, hrr, List.countP_append,
                List.countP_cons, List.countP_nil, isOpenEv, isWriteEv]
              omega
        · cases hbe : bs.isEmpty
          · rcases hdec : pyDecode? bs with _ | s
            · simp [sendMinimalCommand, hco, hio, hwo, hrr, hbe, hdec,
                List.countP_cons, List.countP_nil, isOpenEv, isWriteEv]
            · constructor <;>
                · simp [sendMinimalCommand, hco, hio, hwo, hrr, hbe, hdec,
                    List.countP_append, List.countP_cons, List.countP_nil,
                    isOpenEv, isWriteEv]
                  omega
          · constructor <;>
              · simp [sendMinimalCommand, hco, hio, hwo, hrr, hbe,
                  List.countP_append, List.countP_cons, List.countP_nil,
                  isOpenEv, isWriteEv]
                omega

/-- With the refresh deferred, `send_raw_command` attempts exactly one
connection and at most one write of its own. -/
theorem raw_own_trace_counts (env : NetEnv) (last : StateMap) (dat : CoordData)
    (cmdStr : String) :
    (sendRawCommand env none last dat cmdStr).trace.countP isOpenEv = 1
    ∧ (sendRawCommand env none last dat cmdStr).trace.countP isWriteEv ≤ 1 := by
  cases hco : env.connectOk
  · simp [sendRawCommand, hco, List.countP_cons, List.countP_nil, isOpenEv, isWriteEv]
  · cases hio : initialOk env
    · simp [sendRawCommand, hco, hio, List.countP_cons, List.countP_nil,
        isOpenEv, isWriteEv]
    · cases hwo : env.writeOk
      · simp [sendRawCommand, hco, hio, hwo, List.countP_cons, List.countP_nil,
          isOpenEv, isWriteEv]
      · rcases hrr : env.responseRead with _ | bs
        · simp [sendRawCommand, hco, hio, hwo, hrr, doRequestRefresh,
            List.countP_append, List.countP_cons, List.countP_nil, isOpenEv, isWriteEv]
        · cases hbe : bs.isEmpty
          · rcases hdec : pyDecode? bs with _ | s
            · simp [sendRawCommand, hco, hio, hwo, hrr, hbe, hdec,
                List.countP_cons, List.countP_nil, isOpenEv, isWriteEv]
            · simp [sendRawCommand, hco, hio, hwo, hrr, hbe, hdec, doRequestRefresh,
                List.countP_append, List.countP_cons, List.countP_nil, isOpenEv, isWriteEv]
          · simp [sendRawCommand, hco, hio, hwo, hrr, hbe, doRequestRefresh,
              List.countP_append, List.countP_cons, List.countP_nil, isOpenEv, isWriteEv]

/-- However the refresh behaves, `send_raw_command` attempts at most two
connections and two writes. -/
theorem raw_total_trace_counts (env : NetEnv) (refresh : Option NetEnv)
    (last : StateMap) (dat : CoordData) (cmdStr : String) :
    (sendRawCommand env refresh last dat cmdStr).trace.countP isOpenEv ≤ 2
    ∧ (sendRawCommand env refresh last dat cmdStr).trace.countP isWriteEv ≤ 2 := by
  have h := refresh_trace_counts refresh last dat
  cases hco : env.connectOk
  · simp [sendRawCommand, hco, List.countP_cons, List.countP_nil, isOpenEv, isWriteEv]
  · cases hio : initialOk env
    · simp [sendRawCommand, hco, hio, List.countP_cons, List.countP_nil,
        isOpenEv, isWriteEv]
    · cases hwo : env.writeOk
      · simp [sendRawCommand, hco, hio, hwo, List.countP_cons, List.countP_nil,
          isOpenEv, isWriteEv]
      · rcases hrr : env.responseRead with _ | bs
        · constructor <;>
            · simp [sendRawCommand, hco, hio, hwo, hrr, List.countP_append,
                List.countP_cons, List.countP_nil, isOpenEv, isWriteEv]
              omega
        · cases hbe : bs.isEmpty
          · rcases hdec : pyDecode? bs with _ | s
            · simp [sendRawCommand, hco, hio, hwo, hrr, hbe, hdec,
                List.countP_cons, List.countP_nil, isOpenEv, isWriteEv]
            · constructor <;>
                · simp [sendRawCommand, hco, hio, hwo, hrr, hbe, hdec,
                    List.countP_append, List.countP_cons, List.countP_nil,
                    isOpenEv, isWriteEv]
                  omega
          · constructor <;>
              · simp [sendRawCommand, hco, hio, hwo, hrr, hbe,
                  List.countP_append, List.countP_cons, List.countP_nil,
                  isOpenEv, isWriteEv]
                omega

/-- C6 counterexample: a single `send_smart_command` dispatch whose
closing `async_request_refresh` runs inline (the debouncer cooldown is
idle) returns `True` after a trace containing two connection opens — its
own exchange followed by a complete nested status-query exchange — so a
dispatch is not limited to one TCP exchange. -/
theorem inline_refresh_second_connection_counterexample :
    (sendSmartCommand envRespTimeout (some envReplyM2) defaultState .noneD
      lightOnDelta).ok = true
    ∧ (sendSmartCommand envRespTimeout (some envReplyM2) defaultState .noneD
        lightOnDelta).trace
      = [.openConn, .readInit, .writeF lightOnFrame, .readResp, .closeConn, .sleepEv,
         .reqRefresh, .openConn, .readInit, .writeF statusCmd, .readResp, .closeConn]
    ∧ (sendSmartCommand envRespTimeout (some envReplyM2) defaultState .noneD
        lightOnDelta).trace.countP isOpenEv = 2 :=
  ⟨rfl, rfl, rfl⟩

/-- C6 amended: each dispatcher call performs at most one open and one
write of its own, exactly one open whenever the dispatch reaches the
network, with no retries; but the awaited `async_request_refresh` ending
a successful dispatch can run a full status-query exchange inline (when
the debouncer cooldown is idle), so a dispatch opens at most two — not
exactly one — connections; with the refresh deferred it opens exactly
one. -/
theorem single_own_exchange_per_dispatch :
    ∀ (env : NetEnv) (last : StateMap) (dat : CoordData) (changes : StateMap)
      (cmdStr : String),
    ((sendSmartCommand env none last dat changes).trace.countP isOpenEv ≤ 1
      ∧ (sendSmartCommand env none last dat changes).trace.countP isWriteEv ≤ 1
      ∧ ((currentStateMap dat last).isSome = true →
        (sendSmartCommand env none last dat changes).trace.countP isOpenEv = 1))
    ∧ ((sendMinimalCommand env none last dat changes).trace.countP isOpenEv = 1
      ∧ (sendMinimalCommand env none last dat changes).trace.countP isWriteEv ≤ 1)
    ∧ ((sendRawCommand env none last dat cmdStr).trace.countP isOpenEv = 1
      ∧ (sendRawCommand env none last dat cmdStr).trace.countP isWriteEv ≤ 1)
    ∧ (∀ refresh : Option NetEnv,
      ((sendSmartCommand env refresh last dat changes).trace.countP isOpenEv ≤ 2
        ∧ (sendSmartCommand env refresh last dat changes).trace.countP isWriteEv ≤ 2)
      ∧ ((sendMinimalCommand env refresh last dat changes).trace.countP isOpenEv ≤ 2
        ∧ (sendMinimalCommand env refresh last dat changes).trace.countP isWriteEv ≤ 2)
      ∧ ((sendRawCommand env refresh last dat cmdStr).trace.countP isOpenEv ≤ 2
        ∧ (sendRawCommand env refresh last dat cmdStr).trace.countP isWriteEv ≤ 2)) :=
  fun env last dat changes cmdStr =>
    ⟨smart_own_trace_counts env last dat changes,
     minimal_own_trace_counts env last dat changes,
     raw_own_trace_counts env last dat cmdStr,
     fun refresh =>
       ⟨smart_total_trace_counts env refresh last dat changes,
        minimal_total_trace_counts env refresh last dat changes,
        raw_total_trace_counts env refresh last dat cmdStr⟩⟩

/-- C6 witness: with the refresh deferred, a dispatch that reaches the
network opens exactly once. -/
theorem single_own_exchange_per_dispatch_witness :
    (sendSmartCommand envRespTimeout none defaultState .noneD lightOnDelta).trace.countP
      isOpenEv = 1 :=
  (single_own_exchange_per_dispatch envRespTimeout defaultState .noneD lightOnDelta
    "raw").1.2.2 rfl

/-- C7: every network-level failure (connect timeout or refusal, write
failure) makes `send_smart_command` return `False` instead of raising —
the returned boolean is `True` exactly when no exception was caught at
the dispatcher boundary, i.e. on every failure-free exchange. -/
theorem network_failure_returns_false :
    ∀ (env : NetEnv) (refresh : Option NetEnv) (last : StateMap) (dat : CoordData)
      (changes : StateMap),
    ((env.connectOk = false ∨ env.writeOk = false) →
      (sendSmartCommand env refresh last dat changes).ok = false)
    ∧ (sendSmartCommand env refresh last dat changes).ok
      = (sendSmartCommand env refresh last dat changes).caught.isNone := by
  intro env refresh last dat changes
  constructor
  · intro h
    rcases hcs : currentStateMap dat last with _ | m
    · simp [sendSmartCommand, hcs]
    · rcases h with h | h
      · simp [sendSmartCommand, hcs, h]
      · cases hco : env.connectOk
        · simp [sendSmartCommand, hcs, hco]
        · cases hio : initialOk env
          · simp [sendSmartCommand, hcs, hco, hio]
          · simp [sendSmartCommand, hcs, hco, hio, h]
  · rcases hcs : currentStateMap dat last with _ | m
    · simp [sendSmartCommand, hcs]
    · cases hco : env.connectOk
      · simp [sendSmartCommand, hcs, hco]
      · cases hio : initialOk env
        · simp [sendSmartCommand, hcs, hco, hio]
        · cases hwo : env.writeOk
          · simp [sendSmartCommand, hcs, hco, hio, hwo]
          · rcases hrr : env.responseRead with _ | bs
            · simp [sendSmartCommand, hcs, hco, hio, hwo, hrr]
            · cases hbe : bs.isEmpty
              · rcases hdec : pyDecode? bs with _ | s
                · simp [sendSmartCommand, hcs, hco, hio, hwo, hrr, hbe, hdec]
                · rcases hload : jsonLoads (pyStrip s) with _ | w
                  · simp [sendSmartCommand, hcs, hco, hio, hwo, hrr, hbe, hdec, hload]
                  · rcases hupd : dictUpdate last w with ⟨oe, l2⟩
                    cases oe <;>
                      simp [sendSmartCommand, hcs, hco, hio, hwo, hrr, hbe, hdec,
                        hload, hupd]
              · simp [sendSmartCommand, hcs, hco, hio, hwo, hrr, hbe]

/-- C7 witness: a failed connection attempt yields `False`, not an
exception. -/
theorem network_failure_returns_false_witness :
    (sendSmartCommand envConnFail none defaultState .noneD lightOnDelta).ok = false :=
  (network_failure_returns_false envConnFail none defaultState .noneD lightOnDelta).1
    (Or.inl rfl)

end Hood
